import Mathlib

/-!
Verification of the scroll-driven 3D narrative animation core of the
secured2 marketing site.

The development shallowly embeds the animation orchestrator:

* the phase model (`phaseFor`, from `DataVisualization.tsx` and the
  `onUpdate` scroll callback of `SimpleThreeJSCanvas.tsx`);
* the master-timeline segment model (`Segment`, `setPlayhead`), with the
  segments authored in `animateObjects` of `SimpleThreeJSCanvas.tsx`
  (`DataProtectionJourney`);
* the module-scoped standalone renderer (`standaloneThreeJS.js`):
  `initScene`, `updateScene`, `cleanupScene`, its animation loop, and the
  window resize listeners it registers;
* the per-frame drivers (`animate`, `useFrame`) with their delta clamping
  and exception behaviour;
* the resize handler of the `SimpleThreeJSCanvas` component.

Numeric values are modelled over `ℚ` (the decimal literals of the source
are exactly representable); easing curves are referenced by name and the
evaluation of a timeline is parameterised by an interpretation of those
names, except where a fact about the concrete `sine.inOut` curve is
needed, in which case its defining expression `(1 - cos (pi * x)) / 2`
is used over `ℝ`.
-/

namespace Secured2

/-! ## Phase model

From `DataVisualization.tsx`, lines 238-242 (`currentPhase`), and the
identical thresholds in the ScrollTrigger `onUpdate` callback of
`SimpleThreeJSCanvas.tsx` (lines 886-895). -/

/-- Narrative phase of the scroll journey. -/
inductive Phase where
  | shrink
  | shred
  | secure
  deriving DecidableEq, Repr

/-- Phase lookup from a scroll-progress value, translated from
`DataVisualization.tsx`:

if (value < 0.35) return 'shrink'; if (value < 0.70) return 'shred';
return 'secure'. -/
def phaseFor (p : ℚ) : Phase :=
  if p < 35/100 then .shrink
  else if p < 70/100 then .shred
  else .secure

/-! ## Render loop delta clamping

From the `useFrame` callback of `DataJourneyScene` in
`SimpleThreeJSCanvas.tsx` (lines 356-358):

const safeDelta = Math.min(delta, 0.1); timeRef.current += safeDelta. -/

/-- Clamped per-frame delta: `Math.min(delta, 0.1)`. -/
def safeDelta (delta : ℚ) : ℚ := min delta (1/10)

/-- Advance of the animation clock `timeRef.current += safeDelta`. -/
def advanceTime (timeRef delta : ℚ) : ℚ := timeRef + safeDelta delta

/-! ## Master timeline model

The `DataProtectionJourney` component of `SimpleThreeJSCanvas.tsx`
builds one gsap timeline (`animateObjects`, lines 845 onwards) whose
playhead is driven from scroll progress (`tl.progress(self.progress)`).
Each authored tween or set is modelled as a `Segment`: a target
property, a start offset and duration on the timeline, explicit start
and end values, and an easing curve named by `EaseKind`.

The tween engine is external to the repository; its contract (animate
property P from value A to value B over duration D with easing E,
anchored at a timeline offset) is modelled by `segValueAt`: before the
segment starts the property reads the start value, inside the window it
reads the eased interpolation, after the window the end value.  When a
timeline is scrubbed to playhead `t`, each property takes the value of
the last inserted segment that has started; a property none of whose
segments has started reads the first segment's start value (every
rendered tween restores its captured start value when the playhead
moves back before its window).  Easing curves are interpreted by a
function `I : EaseKind → ℚ → ℚ` kept abstract, since the concrete
curves are transcendental. -/

/-- Easing curve identifiers used by the authored segments. -/
inductive EaseKind where
  | instant
  | sineInOut
  | power1InOut
  | power1Out
  | power2In
  | power2InOut
  | power4Out
  | backOut
  | elasticOut
  deriving DecidableEq, Repr

/-- One authored animation unit of the master timeline. -/
structure Segment where
  target : ℕ
  startOffset : ℚ
  duration : ℚ
  fromVal : ℚ
  toVal : ℚ
  ease : EaseKind
  deriving DecidableEq, Repr

/-- Value contributed by a segment at playhead `t`, under easing
interpretation `I`. A `set` is a zero-duration segment. -/
def segValueAt (I : EaseKind → ℚ → ℚ) (s : Segment) (t : ℚ) : ℚ :=
  if t < s.startOffset then s.fromVal
  else if t < s.startOffset + s.duration then
    s.fromVal + (s.toVal - s.fromVal) * I s.ease ((t - s.startOffset) / s.duration)
  else s.toVal

/-- Local progress argument handed to the easing curve of a segment at
playhead `t` (the `(t - start) / duration` of the tween engine). -/
def easeFracAt (s : Segment) (t : ℚ) : ℚ := (t - s.startOffset) / s.duration

/-- Value a property falls back to when none of its segments has
started: the first segment's start value, or the ambient value when the
property has no segments at all. -/
def propBase (init : ℚ) : List Segment → ℚ
  | [] => init
  | s :: _ => s.fromVal

/-- Value of one property at playhead `t`: the last inserted segment
that has started wins. -/
def propValueAt (I : EaseKind → ℚ → ℚ) (init : ℚ) (segs : List Segment)
    (t : ℚ) : ℚ :=
  segs.foldl (fun v s => if s.startOffset ≤ t then segValueAt I s t else v)
    (propBase init segs)

/-- Scrub the master timeline to playhead `t`
(`timeline.progress(t)`): every property is re-evaluated from its
segments; a property with no segments keeps its current value. -/
def setPlayhead (I : EaseKind → ℚ → ℚ) (tl : List Segment) (t : ℚ)
    (st : ℕ → ℚ) : ℕ → ℚ :=
  fun p => propValueAt I (st p) (tl.filter fun s => s.target == p) t

/-! ### Properties animated by the master timeline -/

/-- Visibility of the data group (1 = visible, 0 = hidden). -/
def dataGroupVisibleProp : ℕ := 0

/-- Visibility of the shred group. -/
def shredGroupVisibleProp : ℕ := 1

/-- Visibility of the secure group. -/
def secureGroupVisibleProp : ℕ := 2

/-- Material opacity of a data-group child mesh. -/
def dataMaterialOpacityProp : ℕ := 3

/-- Material opacity of a shred-group child mesh. -/
def shredMaterialOpacityProp : ℕ := 4

/-- Material opacity of a secure-group child mesh. -/
def secureMaterialOpacityProp : ℕ := 5

/-- Rotation.x of the lock shackle (via the `shackleRotation` proxy). -/
def shackleRotationXProp : ℕ := 6

/-- Position.y of the lock shackle. -/
def shacklePositionYProp : ℕ := 7

/-- Uniform scale of the lock shackle (via the shared
`shackleScaleProxy`). -/
def shackleScaleProp : ℕ := 8

/-- Material opacity of the spark mesh. -/
def sparkOpacityProp : ℕ := 9

/-- Uniform scale of the spark mesh (via `sparkScaleProxy1` and
`sparkScaleProxy2`). -/
def sparkScaleProp : ℕ := 10

/-! ### Authored segments

Translated from `animateObjects` in `SimpleThreeJSCanvas.tsx`.  Offsets
and durations are timeline positions as written in the source; start
values are the values the tween engine captures (established by the
initial `gsap.set` calls or object construction). -/

/-- Timeline offset of the shrink-to-shred transition: the source hides
the data group and reveals the shred group there
(`tl.set(dataGroup, \x7b visible: false \x7d, 0.40)`). -/
def shrinkShredTransitionOffset : ℚ := 40/100

/-- Initial visibility set `tl.set(dataGroupRef.current, \x7b visible:
true \x7d, 0)` (line 913); the group is created visible. -/
def dataGroupShowSet : Segment :=
  { target := dataGroupVisibleProp, startOffset := 0, duration := 0,
    fromVal := 1, toVal := 1, ease := .instant }

/-- Initial visibility set `tl.set(shredGroupRef.current, \x7b visible:
false \x7d, 0)` (line 914); the group is created hidden. -/
def shredGroupHideSet : Segment :=
  { target := shredGroupVisibleProp, startOffset := 0, duration := 0,
    fromVal := 0, toVal := 0, ease := .instant }

/-- Initial visibility set `tl.set(secureGroupRef.current, \x7b visible:
true \x7d, 0)` (line 915). -/
def secureGroupShowSet : Segment :=
  { target := secureGroupVisibleProp, startOffset := 0, duration := 0,
    fromVal := 1, toVal := 1, ease := .instant }

/-- Outgoing fade of a data-group child material in the shrink-to-shred
transition (lines 1055-1062): `tl.to(child.material, \x7b opacity: 0,
duration: 0.3, ease: 'sine.inOut' \x7d, 0.38)`; the start value 1 was
pinned via `gsap.set(child.material, \x7b opacity: 1 \x7d)`. -/
def dataFadeOut : Segment :=
  { target := dataMaterialOpacityProp, startOffset := 38/100,
    duration := 3/10, fromVal := 1, toVal := 0, ease := .sineInOut }

/-- Visibility cut of the data group at the transition offset
(`tl.set(dataGroup, \x7b visible: false \x7d, 0.40)`, line 1066). -/
def dataGroupHide : Segment :=
  { target := dataGroupVisibleProp,
    startOffset := shrinkShredTransitionOffset, duration := 0,
    fromVal := 1, toVal := 0, ease := .instant }

/-- Reveal of the shred group at the transition offset
(`tl.set(shredGroup, \x7b visible: true \x7d, 0.40)`, line 1069). -/
def shredGroupShow : Segment :=
  { target := shredGroupVisibleProp,
    startOffset := shrinkShredTransitionOffset, duration := 0,
    fromVal := 0, toVal := 1, ease := .instant }

/-- Opacity reset of a shred-group child material
(`tl.set(child.material, \x7b opacity: 0 \x7d, 0.40)`, line 1075); the
material is created with default opacity 1. -/
def shredOpacityZeroSet : Segment :=
  { target := shredMaterialOpacityProp,
    startOffset := shrinkShredTransitionOffset, duration := 0,
    fromVal := 1, toVal := 0, ease := .instant }

/-- Incoming fade of a shred-group child material
(`tl.to(child.material, \x7b opacity: 1, duration: 0.3, ease:
'sine.inOut' \x7d, 0.40)`, lines 1077-1081). -/
def shredFadeIn : Segment :=
  { target := shredMaterialOpacityProp,
    startOffset := shrinkShredTransitionOffset, duration := 3/10,
    fromVal := 0, toVal := 1, ease := .sineInOut }

/-- Initial shackle rotation set `tl.set(lockShackleRef.current.rotation,
\x7b x: shackleFullyOpenRotation.x \x7d, 0)` (line 1089); the mesh is
created with rotation 0 and `shackleFullyOpenRotation.x` is
`-Math.PI * 0.75`, irrational, hence a parameter `openX`. -/
def shackleRotOpenSet (openX : ℚ) : Segment :=
  { target := shackleRotationXProp, startOffset := 0, duration := 0,
    fromVal := 0, toVal := openX, ease := .instant }

/-- Initial shackle position set `tl.set(lockShackleRef.current.position,
\x7b y: shackleFullyOpenPosition.y \x7d, 0)` (line 1090);
`shackleFullyOpenPosition.y` is 0.2. -/
def shacklePosOpenSet : Segment :=
  { target := shacklePositionYProp, startOffset := 0, duration := 0,
    fromVal := 0, toVal := 1/5, ease := .instant }

/-- Lock material baseline `tl.set(child.material, \x7b opacity: 0.6 \x7d,
0)` (line 1101); 0.2 was pinned at build time by `gsap.set`. -/
def secureOpacityBaseSet : Segment :=
  { target := secureMaterialOpacityProp, startOffset := 0, duration := 0,
    fromVal := 1/5, toVal := 3/5, ease := .instant }

/-- Lock material raise during shred (`tl.to(child.material, \x7b opacity:
0.8, duration: 0.3 \x7d, 0.40)`, lines 1104-1107); the timeline default
ease is `power2.inOut`. -/
def secureOpacityShredRaise : Segment :=
  { target := secureMaterialOpacityProp, startOffset := 40/100,
    duration := 3/10, fromVal := 3/5, toVal := 4/5, ease := .power2InOut }

/-- Lock material raise during secure (`tl.to(child.material, \x7b opacity:
1.0, duration: 0.3 \x7d, 0.80)`, lines 1110-1113). -/
def secureOpacitySecureRaise : Segment :=
  { target := secureMaterialOpacityProp, startOffset := 80/100,
    duration := 3/10, fromVal := 4/5, toVal := 1, ease := .power2InOut }

/-- One-shot shackle closing rotation (lines 1332-1343):
`tl.to(shackleRotation, \x7b x: shackleClosedRotation.x, duration: 0.5,
ease: 'back.out(1.5)', overwrite: 'auto' \x7d, 0.70)`; closed rotation is
0. -/
def shackleRotClose (openX : ℚ) : Segment :=
  { target := shackleRotationXProp, startOffset := 70/100,
    duration := 1/2, fromVal := openX, toVal := 0, ease := .backOut }

/-- One-shot shackle closing translation (lines 1347-1353):
`tl.to(lockShackleRef.current.position, \x7b y: shackleClosedPosition.y,
duration: 0.5, ease: 'back.out(1.5)', overwrite: 'auto' \x7d, 0.70)`. -/
def shacklePosClose : Segment :=
  { target := shacklePositionYProp, startOffset := 70/100,
    duration := 1/2, fromVal := 1/5, toVal := 0, ease := .backOut }

/-- Shackle bounce up (lines 1359-1373): `tl.to(shackleScaleProxy, \x7b
x: 1.25, ..., duration: 0.1, ease: 'power2.in' \x7d, 0.75)`; the proxy
starts at 1. -/
def shackleScaleUp : Segment :=
  { target := shackleScaleProp, startOffset := 75/100, duration := 1/10,
    fromVal := 1, toVal := 5/4, ease := .power2In }

/-- Shackle bounce return (lines 1375-1389): `tl.to(shackleScaleProxy,
\x7b x: 1, ..., duration: 0.3, ease: 'elastic.out(1.5, 0.3)' \x7d,
0.76)`; the start value is whatever the shared proxy holds when this
tween first renders, hence a parameter. -/
def shackleScaleBack (bounceFrom : ℚ) : Segment :=
  { target := shackleScaleProp, startOffset := 76/100, duration := 3/10,
    fromVal := bounceFrom, toVal := 1, ease := .elasticOut }

/-- Spark opacity reset `tl.set(sparkMesh.material, \x7b opacity: 0 \x7d,
0.75)` (line 1413); the spark material is created with opacity 0. -/
def sparkOpacitySet : Segment :=
  { target := sparkOpacityProp, startOffset := 75/100, duration := 0,
    fromVal := 0, toVal := 0, ease := .instant }

/-- Spark flash in (lines 1414-1418): `tl.to(sparkMesh.material, \x7b
opacity: 0.6, duration: 0.05, ease: 'power4.out' \x7d, 0.75)`. -/
def sparkFlashIn : Segment :=
  { target := sparkOpacityProp, startOffset := 75/100, duration := 1/20,
    fromVal := 0, toVal := 3/5, ease := .power4Out }

/-- Spark growth (lines 1420-1431): `tl.to(sparkScaleProxy1, \x7b value:
0.8, duration: 0.05, ease: 'power4.out' \x7d, 0.75)`; the proxy starts
at 0.5. -/
def sparkScaleGrow : Segment :=
  { target := sparkScaleProp, startOffset := 75/100, duration := 1/20,
    fromVal := 1/2, toVal := 4/5, ease := .power4Out }

/-- Spark fade out (lines 1433-1437): `tl.to(sparkMesh.material, \x7b
opacity: 0, duration: 0.1, ease: 'power2.in' \x7d, 0.76)`; this tween
overlaps `sparkFlashIn`, so its captured start value is a parameter. -/
def sparkFadeOut (sparkFrom : ℚ) : Segment :=
  { target := sparkOpacityProp, startOffset := 76/100, duration := 1/10,
    fromVal := sparkFrom, toVal := 0, ease := .power2In }

/-- Spark shrink (lines 1439-1451): `tl.to(sparkScaleProxy2, \x7b value:
0.2, duration: 0.1, ease: 'power2.in' \x7d, 0.76)`; the proxy starts at
0.8. -/
def sparkScaleShrink : Segment :=
  { target := sparkScaleProp, startOffset := 76/100, duration := 1/10,
    fromVal := 4/5, toVal := 1/5, ease := .power2In }

/-- Master timeline of `animateObjects`, in source insertion order.
The device-dependent camera tweens, the randomized per-particle
scatter, convergence and staggered-fade tweens, and the lock emissive
chain are abstracted as the trailing `extra` list (their targets and
values depend on `Math.random()` and the device class). -/
def masterTimeline (openX bounceFrom sparkFrom : ℚ)
    (extra : List Segment) : List Segment :=
  [dataGroupShowSet, shredGroupHideSet, secureGroupShowSet,
   dataFadeOut, dataGroupHide, shredGroupShow,
   shredOpacityZeroSet, shredFadeIn,
   shackleRotOpenSet openX, shacklePosOpenSet,
   secureOpacityBaseSet, secureOpacityShredRaise, secureOpacitySecureRaise,
   shackleRotClose openX, shacklePosClose,
   shackleScaleUp, shackleScaleBack bounceFrom,
   sparkOpacitySet, sparkFlashIn, sparkScaleGrow,
   sparkFadeOut sparkFrom, sparkScaleShrink] ++ extra

/-! ## Standalone renderer module

Translated from `standaloneThreeJS.js`.  The module holds its scene
state in module-scoped variables (`scene, camera, renderer, cube,
particles, animationId, isInitialized, config`); the browser-side
effects it performs (window resize subscriptions, animation-frame
requests, canvas attachment, renderer allocation) are tracked in the
same state record so that resource lifecycles can be stated. -/

namespace Standalone

/-- Phase identifiers of the standalone module configuration. -/
inductive SPhase where
  | intro
  | shred
  | encrypt
  | distribute
  | reassemble
  deriving DecidableEq, Repr

/-- Colour table `config.phaseColors` of `standaloneThreeJS.js`. -/
structure PhaseColors where
  intro : String
  shred : String
  encrypt : String
  distribute : String
  reassemble : String
  deriving DecidableEq, Repr

/-- Default colours of the `config` literal. -/
def defaultPhaseColors : PhaseColors :=
  { intro := "#0ea5e9", shred := "#3b82f6", encrypt := "#6366f1",
    distribute := "#8b5cf6", reassemble := "#a855f7" }

/-- Module configuration object `config`. -/
structure Config where
  progress : ℚ
  currentPhase : SPhase
  phaseColors : PhaseColors
  deriving DecidableEq, Repr

/-- Initial value of `config`. -/
def initialConfig : Config :=
  { progress := 0, currentPhase := .intro, phaseColors := defaultPhaseColors }

/-- Options accepted by `updateScene` (a subset of the config keys;
`Object.assign` overwrites exactly the keys present). -/
structure UpdateOptions where
  progress : Option ℚ
  currentPhase : Option SPhase
  phaseColors : Option PhaseColors
  deriving DecidableEq, Repr

/-- Shallow merge `Object.assign(config, options)`. -/
def mergeConfig (c : Config) (o : UpdateOptions) : Config :=
  { progress := o.progress.getD c.progress,
    currentPhase := o.currentPhase.getD c.currentPhase,
    phaseColors := o.phaseColors.getD c.phaseColors }

/-- Window resize subscriptions: `initScene` registers a fresh local
closure (`const handleResize = () => ...` inside `initScene`), while
the module also declares a distinct module-level `function
handleResize`. -/
inductive Listener where
  | moduleResize
  | instanceResize (gen : ℕ)
  deriving DecidableEq, Repr

/-- Module and environment state of `standaloneThreeJS.js`. -/
structure World where
  scene : Bool
  camera : Bool
  renderer : Bool
  cube : Bool
  particles : Bool
  animationId : Option ℕ
  isInitialized : Bool
  config : Config
  listeners : List Listener
  pendingFrames : ℕ
  canvasAttached : ℕ
  liveRenderers : ℕ
  nextId : ℕ
  deriving DecidableEq, Repr

/-- State at module load. -/
def initialWorld : World :=
  { scene := false, camera := false, renderer := false, cube := false,
    particles := false, animationId := none, isInitialized := false,
    config := initialConfig, listeners := [], pendingFrames := 0,
    canvasAttached := 0, liveRenderers := 0, nextId := 0 }

/-- Animation loop body `animate` (lines 116-155): early-return when
any of `scene, camera, renderer, cube, particles` is null; otherwise
mutate the objects, render, and re-arm via
`animationId = requestAnimationFrame(animate)`. -/
def animate (w : World) : World :=
  if w.scene && w.camera && w.renderer && w.cube && w.particles then
    { w with pendingFrames := w.pendingFrames + 1,
             animationId := some w.nextId, nextId := w.nextId + 1 }
  else w

/-- Cancellation step of `cleanupScene`: `if (animationId !== null)
cancelAnimationFrame(animationId); animationId = null`. -/
def cancelFrame (w : World) : World :=
  match w.animationId with
  | some _ => { w with pendingFrames := w.pendingFrames - 1, animationId := none }
  | none => w

/-- Mesh disposal steps of `cleanupScene` (cube and particles:
dispose geometry and material, remove from scene, null out). -/
def disposeMeshes (w : World) : World :=
  { w with cube := false, particles := false }

/-- Renderer disposal step of `cleanupScene`: `renderer.dispose()`,
remove the canvas from its parent, `renderer = null`. -/
def disposeRenderer (w : World) : World :=
  if w.renderer then
    { w with renderer := false, liveRenderers := w.liveRenderers - 1,
             canvasAttached := w.canvasAttached - 1 }
  else w

/-- Scene/camera clearing steps of `cleanupScene`. -/
def clearScene (w : World) : World :=
  { w with scene := false, camera := false }

/-- Teardown `cleanupScene` (lines 167-215). Note the final
`window.removeEventListener('resize', handleResize)` resolves
`handleResize` to the module-level function — not to the local closure
that `initScene` actually registered — so only a `moduleResize` entry
is removed from the subscription list. -/
def cleanupScene (w : World) : World :=
  if w.isInitialized then
    let w4 := clearScene (disposeRenderer (disposeMeshes (cancelFrame w)))
    { w4 with isInitialized := false,
              listeners := w4.listeners.erase .moduleResize }
  else w

/-- Acquisition body of `initScene` (after the defensive cleanup): find
the container, create scene and camera, create the renderer, clear the
container children and append the canvas, create cube and particles,
register the local `handleResize` closure, and start the loop by
calling `animate()` once. -/
def initSceneAcquire (containerExists : Bool) (w : World) : Bool × World :=
  if containerExists then
    let w1 := { w with scene := true, camera := true }
    let w2 := { w1 with renderer := true,
                        liveRenderers := w1.liveRenderers + 1,
                        canvasAttached := 1 }
    let w3 := { w2 with cube := true, particles := true }
    let w4 := { w3 with
      listeners := w3.listeners ++ [Listener.instanceResize w3.nextId],
      nextId := w3.nextId + 1 }
    let w5 := animate w4
    (true, { w5 with isInitialized := true })
  else (false, w)

/-- Entry point `initScene(containerId)` (lines 24-110): `if
(isInitialized) cleanupScene();` then the acquisition body. -/
def initScene (containerExists : Bool) (w : World) : Bool × World :=
  initSceneAcquire containerExists
    (if w.isInitialized then cleanupScene w else w)

/-- Entry point `updateScene(options)` (lines 158-164): `if
(!isInitialized) return false; Object.assign(config, options); return
true`. -/
def updateScene (o : UpdateOptions) (w : World) : Bool × World :=
  if w.isInitialized then (true, { w with config := mergeConfig w.config o })
  else (false, w)

/-- Delivery of one queued animation-frame callback: the browser
removes the request and invokes `animate`, which may re-arm itself. -/
def fireFrame (w : World) : World :=
  if w.pendingFrames = 0 then w
  else animate { w with pendingFrames := w.pendingFrames - 1, animationId := none }

/-- Result of invoking a resize listener. -/
inductive CallResult where
  | ok
  | threw
  deriving DecidableEq, Repr

/-- Behaviour of the local closure registered by `initScene`: the
captured `container` is non-null, so the body dereferences the
module-scoped `camera` (`camera.aspect = ...`) and then `renderer`
(`renderer.setSize(...)`); with either variable nulled by
`cleanupScene` the call throws. -/
def localHandleResize (w : World) : CallResult :=
  if w.camera then (if w.renderer then .ok else .threw) else .threw

/-- Behaviour of the module-level `handleResize` function (lines
218-228): it guards `if (!camera || !renderer) return;` and never
throws. -/
def moduleHandleResize (w : World) : CallResult :=
  if w.camera && w.renderer then .ok else .ok

/-- Dispatch of one window resize event to every registered
subscription. -/
def dispatchResize (w : World) : List CallResult :=
  w.listeners.map fun l =>
    match l with
    | .moduleResize => moduleHandleResize w
    | .instanceResize _ => localHandleResize w

/-- Module state after one `initScene` against a present container
followed by `cleanupScene` — the torn-down instance. -/
def tornDownWorld : World := cleanupScene (initScene true initialWorld).2

/-- External operations driving the module. -/
inductive Op where
  | init (containerExists : Bool)
  | cleanup
  | fire
  | update (o : UpdateOptions)
  deriving DecidableEq, Repr

/-- Interpretation of one operation. -/
def applyOp (w : World) : Op → World
  | .init ok => (initScene ok w).2
  | .cleanup => cleanupScene w
  | .fire => fireFrame w
  | .update o => (updateScene o w).2

/-- Run a sequence of operations from module load. -/
def runOps (ops : List Op) : World := ops.foldl applyOp initialWorld

/-- Resource invariant of the standalone module: at most one live
renderer, at most one attached canvas and at most one outstanding
animation-frame request exist, they exist exactly while the module
variables hold them, and an uninitialized module owns no scene
resources and no pending frame. -/
def InvFull (w : World) : Prop :=
  w.liveRenderers = (if w.renderer then 1 else 0) ∧
  w.canvasAttached = (if w.renderer then 1 else 0) ∧
  w.pendingFrames = (if w.animationId.isSome then 1 else 0) ∧
  (w.isInitialized = true →
    (w.scene = true ∧ w.camera = true ∧ w.renderer = true ∧
     w.cube = true ∧ w.particles = true)) ∧
  (w.isInitialized = false →
    (w.scene = false ∧ w.camera = false ∧ w.renderer = false ∧
     w.cube = false ∧ w.particles = false ∧ w.animationId = none))

instance (w : World) : Decidable (InvFull w) := by
  unfold InvFull
  infer_instance

end Standalone

/-! ## Render-loop exception behaviour

Two self-re-arming render loops exist: `animate` in
`standaloneThreeJS.js` (lines 116-155, no exception handler) and
`animate` in the `DataProtectionJourney` component of
`SimpleThreeJSCanvas.tsx` (lines 1752-1793, body wrapped in try/catch
that logs, cancels the pending frame and stops). -/

/-- Environment of one frame callback invocation. -/
structure FrameEnv where
  refsPresent : Bool
  bodyThrows : Bool
  deriving DecidableEq, Repr

/-- Outcome of one frame callback invocation: either the callback
returns (re-armed or not, with the number of error-log emissions), or
an exception propagates to the caller. -/
inductive FrameOutcome where
  | completed (rearmed : Bool) (logged : ℕ)
  | propagated (logged : ℕ)
  deriving DecidableEq, Repr

/-- Frame callback of `standaloneThreeJS.js` `animate`: early return
when refs are gone; otherwise run the body and re-arm as the last
statement. The body has no try/catch, so a throwing body propagates
(and the re-arm statement is skipped). -/
def standaloneAnimateFrame (env : FrameEnv) : FrameOutcome :=
  if env.refsPresent = false then .completed false 0
  else if env.bodyThrows then .propagated 0
  else .completed true 0

/-- Frame callback of the `DataProtectionJourney` `animate`, as a
single invocation: early return when refs are gone; body inside
try/catch; on error, log once via console.error, cancel the pending
frame and do not re-arm. The effect that defines it also installs a
200 ms `ensureAnimationIsRunning` watchdog that can re-invoke it; the
loop state across invocations and ticks is modelled below by
`journeyAnimateStep` and `ensureAnimationTick`. -/
def journeyAnimateFrame (env : FrameEnv) : FrameOutcome :=
  if env.refsPresent = false then .completed false 0
  else if env.bodyThrows then .completed false 1
  else .completed true 0

/-- Loop state of the `DataProtectionJourney` animation system across
invocations: whether `animationFrameRef.current` holds a request id,
and how many times console.error has fired. -/
structure JourneyLoopState where
  frameRefSet : Bool
  logged : ℕ
  deriving DecidableEq, Repr

/-- Effect of one invocation of the `DataProtectionJourney` `animate`
callback (lines 1752-1793) on the loop state: with refs gone it
returns untouched; a successful body re-arms via
`animationFrameRef.current = requestAnimationFrame(animate)`; a
throwing body is caught, logged via console.error, and the catch
cancels and nulls the frame ref. -/
def journeyAnimateStep (env : FrameEnv) (s : JourneyLoopState) :
    JourneyLoopState :=
  if env.refsPresent = false then s
  else if env.bodyThrows then { frameRefSet := false, logged := s.logged + 1 }
  else { s with frameRefSet := true }

/-- One 200 ms tick of the `ensureAnimationIsRunning` watchdog that the
same effect installs (lines 1796-1800 and the
`setInterval(ensureAnimationIsRunning, 200)` at line 1819): when no
frame request is registered and the refs are live, it calls `animate()`
again. -/
def ensureAnimationTick (env : FrameEnv) (s : JourneyLoopState) :
    JourneyLoopState :=
  if s.frameRefSet = false ∧ env.refsPresent = true then
    journeyAnimateStep env s
  else s

/-- Iterated watchdog ticks. -/
def ensureAnimationTicks (env : FrameEnv) :
    ℕ → JourneyLoopState → JourneyLoopState
  | 0, s => s
  | k + 1, s => ensureAnimationTicks env k (ensureAnimationTick env s)

/-- Log count after one invocation of the `DataJourneyScene` `useFrame`
callback (lines 351-458): the whole body sits in a try/catch whose
handler calls console.error; the host (react-three-fiber) re-arms the
callback every display frame regardless of the outcome. -/
def useFrameLogStep (env : FrameEnv) (logged : ℕ) : ℕ :=
  if env.refsPresent = false then logged
  else if env.bodyThrows then logged + 1
  else logged

/-- Log count after `n` host-driven frames of the `useFrame`
callback. -/
def useFrameLogSteps (env : FrameEnv) : ℕ → ℕ → ℕ
  | 0, logged => logged
  | n + 1, logged => useFrameLogSteps env n (useFrameLogStep env logged)

/-! ## Component resize handler

From the `SimpleThreeJSCanvas` component (lines 99-105): the resize
closure guards on the canvas/camera/renderer refs, then sets
`camera.aspect = clientWidth / clientHeight`, calls
`updateProjectionMatrix`, and resizes the renderer; the scene graph is
not touched. -/

namespace Canvas

/-- View-side state read and written by the resize handler, together
with the scene-graph object list it must not touch. -/
structure SceneView where
  refsPresent : Bool
  aspect : ℚ
  rendererWidth : ℚ
  rendererHeight : ℚ
  sceneObjects : List ℕ
  deriving DecidableEq, Repr

/-- Resize closure `handleResize` of the component. -/
def handleResize (clientWidth clientHeight : ℚ) (v : SceneView) : SceneView :=
  if v.refsPresent = false then v
  else { v with aspect := clientWidth / clientHeight,
                rendererWidth := clientWidth,
                rendererHeight := clientHeight }

end Canvas

end Secured2

namespace Secured2

/-! ## Theorems -/

/-- C1: `phaseFor` is total on `ℚ` and partitions the progress domain:
values below 0.35 (including all negative values and 0) map to Shrink,
values in [0.35, 0.70) map to Shred, and values at or above 0.70
(including 1 and beyond) map to Secure; the six sample points of the
specification evaluate as stated. -/
theorem phaseFor_partition :
    (∀ p : ℚ,
      (phaseFor p = .shrink ↔ p < 35/100) ∧
      (phaseFor p = .shred ↔ 35/100 ≤ p ∧ p < 70/100) ∧
      (phaseFor p = .secure ↔ 70/100 ≤ p)) ∧
    phaseFor 0 = .shrink ∧
    phaseFor (34/100) = .shrink ∧
    phaseFor (35/100) = .shred ∧
    phaseFor (69/100) = .shred ∧
    phaseFor (70/100) = .secure ∧
    phaseFor 1 = .secure := by
  refine ⟨fun p => ?_, by norm_num [phaseFor], by norm_num [phaseFor],
    by norm_num [phaseFor], by norm_num [phaseFor], by norm_num [phaseFor],
    by norm_num [phaseFor]⟩
  unfold phaseFor
  split_ifs with h1 h2
  · exact ⟨iff_of_true rfl h1,
      iff_of_false (by simp)
        (fun h => absurd h1 (not_lt.mpr h.1)),
      iff_of_false (by simp)
        (fun h => absurd h1 (not_lt.mpr (le_trans (by norm_num) h)))⟩
  · exact ⟨iff_of_false (by simp) (fun h => absurd h h1),
      iff_of_true rfl ⟨not_lt.mp h1, h2⟩,
      iff_of_false (by simp)
        (fun h => absurd h2 (not_lt.mpr h))⟩
  · exact ⟨iff_of_false (by simp) (fun h => absurd h h1),
      iff_of_false (by simp) (fun h => absurd h.2 h2),
      iff_of_true rfl (not_lt.mp h2)⟩

/-- C9: the render-loop driver adds exactly `min delta 0.1` to the
animation clock, so the applied per-frame delta never exceeds 100 ms,
and deltas at most 100 ms are applied unchanged. -/
theorem advanceTime_clamps_delta :
    ∀ timeRef delta : ℚ,
      advanceTime timeRef delta - timeRef = min delta (1/10) ∧
      advanceTime timeRef delta - timeRef ≤ 1/10 ∧
      (1/10 ≤ delta → advanceTime timeRef delta = timeRef + 1/10) ∧
      (delta ≤ 1/10 → advanceTime timeRef delta = timeRef + delta) := by
  intro t d
  refine ⟨by simp [advanceTime, safeDelta], ?_, fun h => ?_, fun h => ?_⟩
  · simp [advanceTime, safeDelta]
  · unfold advanceTime safeDelta
    rw [min_eq_right h]
  · unfold advanceTime safeDelta
    rw [min_eq_left h]

/-- Helper: scrubbing the timeline to playhead `x` wipes out the effect
of any previous scrub to `y`, because the value written to every
property touched by a segment depends only on the segment list and on
`x`, and properties with no segments pass through unchanged. -/
theorem setPlayhead_absorbs (I : EaseKind → ℚ → ℚ) (tl : List Segment)
    (x y : ℚ) (st : ℕ → ℚ) :
    setPlayhead I tl x (setPlayhead I tl y st) = setPlayhead I tl x st := by
  funext p
  cases h : tl.filter (fun s => s.target == p) with
  | nil => simp [setPlayhead, propValueAt, propBase, h]
  | cons s rest => simp [setPlayhead, propValueAt, propBase, h]

/-- C4: setting the master timeline playhead is idempotent — for every
easing interpretation, every instantiation of the capture-dependent
start values, every residual segment list, every playhead `x` and every
object state, scrubbing to `x` twice yields exactly the object states
of scrubbing once; no segment accumulates drift. -/
theorem setPlayhead_idempotent (I : EaseKind → ℚ → ℚ)
    (openX bounceFrom sparkFrom : ℚ) (extra : List Segment) (x : ℚ)
    (st : ℕ → ℚ) :
    setPlayhead I (masterTimeline openX bounceFrom sparkFrom extra) x
      (setPlayhead I (masterTimeline openX bounceFrom sparkFrom extra) x st) =
    setPlayhead I (masterTimeline openX bounceFrom sparkFrom extra) x st :=
  setPlayhead_absorbs I _ x x st

/-- C5: reverse playback round-trips — driving the master timeline
playhead through 0, then 1, then back to 0 returns every animated
property (the one-shot shackle-closing and spark-flash segments
included) to exactly its state at playhead 0. -/
theorem setPlayhead_roundTrip (I : EaseKind → ℚ → ℚ)
    (openX bounceFrom sparkFrom : ℚ) (extra : List Segment)
    (st : ℕ → ℚ) :
    setPlayhead I (masterTimeline openX bounceFrom sparkFrom extra) 0
      (setPlayhead I (masterTimeline openX bounceFrom sparkFrom extra) 1
        (setPlayhead I (masterTimeline openX bounceFrom sparkFrom extra) 0 st)) =
    setPlayhead I (masterTimeline openX bounceFrom sparkFrom extra) 0 st := by
  rw [setPlayhead_absorbs, setPlayhead_absorbs]

/-- C3 counterexample: in the shrink-to-shred transition the outgoing
fade of the data-group materials starts at 0.38 with duration 0.3, so
it ends at 0.68 — not at the 0.40 transition offset where the incoming
shred fade starts and the group visibilities are switched. -/
theorem crossfade_fadeOut_misses_offset :
    dataFadeOut.startOffset + dataFadeOut.duration = 68/100 ∧
    shrinkShredTransitionOffset = 40/100 ∧
    dataFadeOut.startOffset + dataFadeOut.duration ≠ shrinkShredTransitionOffset := by
  refine ⟨by norm_num [dataFadeOut], rfl, by norm_num [dataFadeOut, shrinkShredTransitionOffset]⟩

/-- C3 amended: the outgoing data fade (1 to 0) starts at 0.38 and runs
for 0.3, overrunning the 0.40 transition offset by 0.28, while the
incoming shred fade (0 to 1) starts at 0.40 with duration 0.3; the two
fades overlap rather than abutting, the outgoing group is hidden by a
visibility set at 0.40 instead of by its fade completing there, and the
sum of the two material opacities under the authored `sine.inOut`
easing drops below 0.95 inside the crossfade window (at playhead 0.55
it equals `1 - sin(pi/15)/2`, about 0.896). -/
theorem crossfade_overlap_amended :
    dataFadeOut.startOffset = 38/100 ∧ dataFadeOut.duration = 3/10 ∧
    dataFadeOut.fromVal = 1 ∧ dataFadeOut.toVal = 0 ∧
    shredFadeIn.startOffset = shrinkShredTransitionOffset ∧
    shredFadeIn.duration = 3/10 ∧
    shredFadeIn.fromVal = 0 ∧ shredFadeIn.toVal = 1 ∧
    dataGroupHide.startOffset = shrinkShredTransitionOffset ∧
    shrinkShredTransitionOffset + 28/100
      = dataFadeOut.startOffset + dataFadeOut.duration ∧
    (1 - (1 - Real.cos (Real.pi * ((easeFracAt dataFadeOut (55/100) : ℚ) : ℝ))) / 2)
      + (1 - Real.cos (Real.pi * ((easeFracAt shredFadeIn (55/100) : ℚ) : ℝ))) / 2
      < 19/20 := by
  refine ⟨rfl, rfl, rfl, rfl, rfl, rfl, rfl, rfl, rfl,
    by norm_num [dataFadeOut, shrinkShredTransitionOffset], ?_⟩
  have hfrac1 : easeFracAt dataFadeOut (55/100) = 17/30 := by
    norm_num [easeFracAt, dataFadeOut]
  have hfrac2 : easeFracAt shredFadeIn (55/100) = 1/2 := by
    norm_num [easeFracAt, shredFadeIn, shrinkShredTransitionOffset]
  rw [hfrac1, hfrac2]
  have hc1 : Real.cos (Real.pi * ((17/30 : ℚ) : ℝ)) = -Real.sin (Real.pi / 15) := by
    have harg : Real.pi * ((17/30 : ℚ) : ℝ) = Real.pi / 15 + Real.pi / 2 := by
      push_cast
      ring
    rw [harg, Real.cos_add_pi_div_two]
  have hc2 : Real.cos (Real.pi * ((1/2 : ℚ) : ℝ)) = 0 := by
    have harg : Real.pi * ((1/2 : ℚ) : ℝ) = Real.pi / 2 := by
      push_cast
      ring
    rw [harg, Real.cos_pi_div_two]
  rw [hc1, hc2]
  have hsin : (1/10 : ℝ) < Real.sin (Real.pi / 15) := by
    set x : ℝ := Real.pi / 15 with hx
    have hx0 : 0 < x := by positivity
    have hxlo : (1/5 : ℝ) < x := by
      rw [hx]
      nlinarith [Real.pi_gt_three]
    have hxhi : x < 21/100 := by
      rw [hx]
      nlinarith [Real.pi_lt_d2]
    have hx1 : x ≤ 1 := by linarith
    have hcube : x ^ 3 < (21/100 : ℝ) ^ 3 :=
      pow_lt_pow_left₀ hxhi hx0.le (by norm_num)
    have hlow := Real.sin_gt_sub_cube hx0 hx1
    nlinarith [hlow, hcube]
  linarith

/-- Witness for C9 at concrete inputs: a 5-second delta (tab
backgrounding) is clamped to 0.1, a 16 ms delta passes through. -/
theorem advanceTime_clamps_delta_witness :
    (1/10 : ℚ) ≤ 5 ∧ advanceTime 2 5 = 2 + 1/10 ∧
    (16/1000 : ℚ) ≤ 1/10 ∧ advanceTime 2 (16/1000) = 2 + 16/1000 := by
  refine ⟨by norm_num, (advanceTime_clamps_delta 2 5).2.2.1 (by norm_num),
    by norm_num, (advanceTime_clamps_delta 2 (16/1000)).2.2.2 (by norm_num)⟩

namespace Standalone

/-- Helper: the module state at load satisfies the resource
invariant. -/
theorem InvFull_initialWorld : InvFull initialWorld := by decide

/-- Helper: `cleanupScene` preserves the resource invariant. -/
theorem InvFull_cleanup {w : World} (h : InvFull w) :
    InvFull (cleanupScene w) := by
  obtain ⟨s, c, r, cu, pa, aid, ii, cfg, ls, pf, ca, lr, ni⟩ := w
  obtain ⟨h1, h2, h3, h4, h5⟩ := h
  simp only at h1 h2 h3 h4 h5
  cases ii with
  | false =>
    simpa [cleanupScene] using ⟨h1, h2, h3, h4, h5⟩
  | true =>
    obtain ⟨hs, hc, hr, hcu, hp⟩ := h4 rfl
    subst hs hc hr hcu hp
    cases aid with
    | none =>
      simp [cleanupScene, clearScene, disposeRenderer, disposeMeshes,
        cancelFrame, InvFull, h1, h2, h3]
    | some i =>
      simp [cleanupScene, clearScene, disposeRenderer, disposeMeshes,
        cancelFrame, InvFull, h1, h2, h3]

/-- Helper: tearing down an initialized module leaves it
uninitialized. -/
theorem cleanup_uninit {w : World} (hi : w.isInitialized = true) :
    (cleanupScene w).isInitialized = false := by
  simp [cleanupScene, clearScene, disposeRenderer, disposeMeshes,
    cancelFrame, hi]

/-- Helper: from an uninitialized state satisfying the invariant, the
acquisition body of `initScene` re-establishes the invariant. -/
theorem InvFull_acquire {w : World} (h : InvFull w)
    (hi : w.isInitialized = false) (containerExists : Bool) :
    InvFull (initSceneAcquire containerExists w).2 := by
  obtain ⟨s, c, r, cu, pa, aid, ii, cfg, ls, pf, ca, lr, ni⟩ := w
  obtain ⟨h1, h2, h3, h4, h5⟩ := h
  simp only at h1 h2 h3 h4 h5 hi
  subst hi
  obtain ⟨hs, hc, hr, hcu, hp, ha⟩ := h5 rfl
  subst hs hc hr hcu hp ha
  cases containerExists with
  | false =>
    simp [initSceneAcquire, InvFull, h1, h2, h3]
  | true =>
    simp [initSceneAcquire, animate, InvFull, h1, h2, h3]

/-- Helper: `fireFrame` preserves the resource invariant. -/
theorem InvFull_fire {w : World} (h : InvFull w) : InvFull (fireFrame w) := by
  obtain ⟨s, c, r, cu, pa, aid, ii, cfg, ls, pf, ca, lr, ni⟩ := w
  obtain ⟨h1, h2, h3, h4, h5⟩ := h
  simp only at h1 h2 h3 h4 h5
  cases aid with
  | none =>
    simp only [Option.isSome_none, Bool.false_eq_true, if_false] at h3
    subst h3
    simpa [fireFrame] using ⟨h1, h2, rfl, h4, h5⟩
  | some i =>
    cases ii with
    | false =>
      obtain ⟨hs, hc, hr, hcu, hp, ha⟩ := h5 rfl
      cases ha
    | true =>
      obtain ⟨hs, hc, hr, hcu, hp⟩ := h4 rfl
      subst hs hc hr hcu hp
      simp [fireFrame, animate, InvFull, h1, h2, h3]

/-- Helper: `updateScene` touches only the configuration and preserves
the resource invariant. -/
theorem InvFull_update {w : World} (h : InvFull w) (o : UpdateOptions) :
    InvFull (updateScene o w).2 := by
  obtain ⟨s, c, r, cu, pa, aid, ii, cfg, ls, pf, ca, lr, ni⟩ := w
  obtain ⟨h1, h2, h3, h4, h5⟩ := h
  simp only at h1 h2 h3 h4 h5
  cases ii with
  | false =>
    obtain ⟨hs, hc, hr, hcu, hp, ha⟩ := h5 rfl
    subst hs hc hr hcu hp ha
    simp [updateScene, InvFull, h1, h2, h3]
  | true =>
    obtain ⟨hs, hc, hr, hcu, hp⟩ := h4 rfl
    subst hs hc hr hcu hp
    simp [updateScene, InvFull, h1, h2, h3]

/-- Helper: every operation preserves the resource invariant. -/
theorem InvFull_applyOp {w : World} (h : InvFull w) (op : Op) :
    InvFull (applyOp w op) := by
  cases op with
  | init containerExists =>
    show InvFull (initScene containerExists w).2
    unfold initScene
    by_cases hi : w.isInitialized = true
    · rw [if_pos hi]
      exact InvFull_acquire (InvFull_cleanup h) (cleanup_uninit hi)
        containerExists
    · have hi2 : w.isInitialized = false := by
        revert hi
        cases w.isInitialized <;> simp
      rw [if_neg hi]
      exact InvFull_acquire h hi2 containerExists
  | cleanup => exact InvFull_cleanup h
  | fire => exact InvFull_fire h
  | update o => exact InvFull_update h o

/-- Helper: the resource invariant holds after every operation
sequence from module load. -/
theorem InvFull_runOps (ops : List Op) : InvFull (runOps ops) := by
  have h : ∀ w, InvFull w → InvFull (ops.foldl applyOp w) := by
    induction ops with
    | nil => exact fun w hw => hw
    | cons op rest ih => exact fun w hw => ih _ (InvFull_applyOp hw op)
  exact h _ InvFull_initialWorld

end Standalone

/-- C2 (code bug witnessed): after `initScene` against a present
container followed by `cleanupScene`, no animation-frame request is
pending and a stray frame callback or `updateScene` call is a no-op —
but the resize subscription registered by `initScene` is still
installed, because `cleanupScene` passed the module-level
`handleResize` function to `removeEventListener` instead of the local
closure `initScene` registered, and delivering a window resize event to
the surviving closure throws (it dereferences the nulled `camera`). -/
theorem cleanupScene_leaves_resize_listener :
    Standalone.tornDownWorld.pendingFrames = 0 ∧
    Standalone.tornDownWorld.animationId = none ∧
    Standalone.tornDownWorld.isInitialized = false ∧
    Standalone.tornDownWorld.listeners
      = [Standalone.Listener.instanceResize 0] ∧
    Standalone.dispatchResize Standalone.tornDownWorld
      = [Standalone.CallResult.threw] ∧
    Standalone.updateScene
        { progress := some (1/2), currentPhase := some .shred,
          phaseColors := none } Standalone.tornDownWorld
      = (false, Standalone.tornDownWorld) ∧
    Standalone.fireFrame Standalone.tornDownWorld = Standalone.tornDownWorld ∧
    Standalone.animate Standalone.tornDownWorld = Standalone.tornDownWorld := by
  decide

/-- C6 counterexample: the original claim fails at concrete inputs in
all three per-frame callbacks — the standalone renderer's `animate`
propagates its exception to the host unlogged; the
`DataProtectionJourney` `animate`, restarted every 200 ms by the
`ensureAnimationIsRunning` watchdog, has logged four times after its
initial throw and three watchdog ticks under a persistent fault (not
exactly once, and it keeps being re-armed); and the `DataJourneyScene`
`useFrame` callback has logged three times after three throwing
host-driven frames. -/
theorem render_loop_exception_cex :
    standaloneAnimateFrame { refsPresent := true, bodyThrows := true }
      = FrameOutcome.propagated 0 ∧
    (ensureAnimationTicks { refsPresent := true, bodyThrows := true } 3
        (journeyAnimateStep { refsPresent := true, bodyThrows := true }
          { frameRefSet := true, logged := 0 })).logged = 4 ∧
    useFrameLogSteps { refsPresent := true, bodyThrows := true } 3 0 = 3 := by
  decide

/-- C6 amended: exceptions in the two React per-frame callbacks are
caught locally and never propagate — a throwing `DataProtectionJourney`
`animate` invocation logs once, cancels its frame request and does not
re-arm itself — but the `ensureAnimationIsRunning` watchdog installed
alongside it restarts the throwing callback once per 200 ms tick, so
after `k` ticks under a persistent fault the error has been logged
`l + k` times rather than exactly once; the `DataJourneyScene`
`useFrame` callback logs once per throwing frame while the host keeps
re-arming it (`n` more logs after `n` frames); and the standalone
renderer's `animate` has no handler at all — its exception propagates
to the host unlogged, the loop stopping only because the re-arm
statement is skipped. -/
theorem render_loop_exception_amended :
    (∀ (env : FrameEnv) (n : ℕ),
      journeyAnimateFrame env ≠ FrameOutcome.propagated n) ∧
    (∀ env : FrameEnv, env.refsPresent = true → env.bodyThrows = true →
      journeyAnimateFrame env = FrameOutcome.completed false 1 ∧
      ∀ s : JourneyLoopState,
        journeyAnimateStep env s
          = { frameRefSet := false, logged := s.logged + 1 }) ∧
    (∀ env : FrameEnv, env.refsPresent = true → env.bodyThrows = true →
      ∀ k l : ℕ,
        ensureAnimationTicks env k { frameRefSet := false, logged := l }
          = { frameRefSet := false, logged := l + k }) ∧
    (∀ env : FrameEnv, env.refsPresent = true → env.bodyThrows = true →
      ∀ n l : ℕ, useFrameLogSteps env n l = l + n) ∧
    standaloneAnimateFrame { refsPresent := true, bodyThrows := true }
      = FrameOutcome.propagated 0 := by
  refine ⟨fun env n => ?_, fun env h1 h2 => ⟨?_, fun s => ?_⟩,
    fun env h1 h2 k l => ?_, fun env h1 h2 n l => ?_, by decide⟩
  · obtain ⟨r, b⟩ := env
    cases r <;> cases b <;> simp [journeyAnimateFrame]
  · obtain ⟨r, b⟩ := env
    simp only at h1 h2
    subst h1 h2
    decide
  · simp [journeyAnimateStep, h1, h2]
  · induction k generalizing l with
    | zero => simp [ensureAnimationTicks]
    | succ k ih =>
      have hstep : ensureAnimationTick env { frameRefSet := false, logged := l }
          = { frameRefSet := false, logged := l + 1 } := by
        simp [ensureAnimationTick, journeyAnimateStep, h1, h2]
      calc ensureAnimationTicks env (k + 1) { frameRefSet := false, logged := l }
          = ensureAnimationTicks env k
              (ensureAnimationTick env { frameRefSet := false, logged := l }) := rfl
        _ = ensureAnimationTicks env k { frameRefSet := false, logged := l + 1 } := by
              rw [hstep]
        _ = { frameRefSet := false, logged := (l + 1) + k } := ih (l + 1)
        _ = { frameRefSet := false, logged := l + (k + 1) } := by
              congr 1
              omega
  · induction n generalizing l with
    | zero => simp [useFrameLogSteps]
    | succ n ih =>
      have hstep : useFrameLogStep env l = l + 1 := by
        simp [useFrameLogStep, h1, h2]
      calc useFrameLogSteps env (n + 1) l
          = useFrameLogSteps env n (useFrameLogStep env l) := rfl
        _ = useFrameLogSteps env n (l + 1) := by rw [hstep]
        _ = (l + 1) + n := ih (l + 1)
        _ = l + (n + 1) := by omega

/-- Witness for C6 amended at the concrete persistently-faulting
environment: one throwing invocation logs once without re-arming, two
watchdog ticks bring the log count from one to three, and three
throwing host frames log three times. -/
theorem render_loop_exception_amended_witness :
    ({ refsPresent := true, bodyThrows := true } : FrameEnv).refsPresent = true ∧
    ({ refsPresent := true, bodyThrows := true } : FrameEnv).bodyThrows = true ∧
    journeyAnimateFrame { refsPresent := true, bodyThrows := true }
      = FrameOutcome.completed false 1 ∧
    ensureAnimationTicks { refsPresent := true, bodyThrows := true } 2
        { frameRefSet := false, logged := 1 }
      = { frameRefSet := false, logged := 3 } ∧
    useFrameLogSteps { refsPresent := true, bodyThrows := true } 3 0 = 3 := by
  refine ⟨rfl, rfl, (render_loop_exception_amended.2.1 _ rfl rfl).1, ?_, ?_⟩
  · have h := render_loop_exception_amended.2.2.1
      { refsPresent := true, bodyThrows := true } rfl rfl 2 1
    simpa using h
  · have h := render_loop_exception_amended.2.2.2.1
      { refsPresent := true, bodyThrows := true } rfl rfl 3 0
    simpa using h

/-- C7: at most one live renderer instance exists per container — the
resource invariant (at most one live renderer, canvas and pending frame
request, and none while uninitialized) holds after every sequence of
`initScene`, `cleanupScene`, frame and `updateScene` operations; and
whenever `initScene` runs while a previous instance is initialized, it
first reaches the fully torn-down state (zero pending frames, zero live
renderers, zero attached canvases, uninitialized) before the
acquisition body allocates anything. -/
theorem initScene_single_instance :
    (∀ ops : List Standalone.Op, Standalone.InvFull (Standalone.runOps ops)) ∧
    (∀ (containerExists : Bool) (w : Standalone.World),
      Standalone.InvFull w → w.isInitialized = true →
      ((Standalone.cleanupScene w).pendingFrames = 0 ∧
       (Standalone.cleanupScene w).liveRenderers = 0 ∧
       (Standalone.cleanupScene w).canvasAttached = 0 ∧
       (Standalone.cleanupScene w).isInitialized = false) ∧
      Standalone.initScene containerExists w
        = Standalone.initSceneAcquire containerExists
            (Standalone.cleanupScene w)) := by
  refine ⟨Standalone.InvFull_runOps, fun containerExists w h hi => ⟨⟨?_, ?_, ?_, ?_⟩, ?_⟩⟩
  · obtain ⟨hc1, hc2, hc3, hc4, hc5⟩ :=
      Standalone.InvFull_cleanup (w := w) h
    obtain ⟨_, _, hr, _, _, ha⟩ := hc5 (Standalone.cleanup_uninit hi)
    simp [hc3, ha]
  · obtain ⟨hc1, hc2, hc3, hc4, hc5⟩ :=
      Standalone.InvFull_cleanup (w := w) h
    obtain ⟨_, _, hr, _, _, _⟩ := hc5 (Standalone.cleanup_uninit hi)
    simp [hc1, hr]
  · obtain ⟨hc1, hc2, hc3, hc4, hc5⟩ :=
      Standalone.InvFull_cleanup (w := w) h
    obtain ⟨_, _, hr, _, _, _⟩ := hc5 (Standalone.cleanup_uninit hi)
    simp [hc2, hr]
  · exact Standalone.cleanup_uninit hi
  · simp [Standalone.initScene, hi]

/-- Witness for C7 at the concrete state reached by one successful
`initScene`: the invariant and initialization hypotheses hold there and
the teardown-before-acquire conclusion follows. -/
theorem initScene_single_instance_witness :
    Standalone.InvFull (Standalone.initScene true Standalone.initialWorld).2 ∧
    (Standalone.initScene true Standalone.initialWorld).2.isInitialized = true ∧
    ((Standalone.cleanupScene (Standalone.initScene true Standalone.initialWorld).2).pendingFrames = 0 ∧
     (Standalone.cleanupScene (Standalone.initScene true Standalone.initialWorld).2).liveRenderers = 0 ∧
     (Standalone.cleanupScene (Standalone.initScene true Standalone.initialWorld).2).canvasAttached = 0 ∧
     (Standalone.cleanupScene (Standalone.initScene true Standalone.initialWorld).2).isInitialized = false) ∧
    Standalone.initScene true (Standalone.initScene true Standalone.initialWorld).2
      = Standalone.initSceneAcquire true
          (Standalone.cleanupScene (Standalone.initScene true Standalone.initialWorld).2) := by
  refine ⟨by decide, by decide, ?_, ?_⟩
  · exact (initScene_single_instance.2 true _ (by decide) (by decide)).1
  · exact (initScene_single_instance.2 true _ (by decide) (by decide)).2

/-- C8: the component resize handler is frame-preserving — with live
refs it sets the camera aspect to exactly `clientWidth / clientHeight`
and resizes the render surface, and it leaves the scene-graph object
list untouched (the height is assumed positive so that rational and
JavaScript division agree). -/
theorem handleResize_frame_preserving :
    ∀ (clientWidth clientHeight : ℚ) (v : Canvas.SceneView),
      0 < clientHeight → v.refsPresent = true →
      (Canvas.handleResize clientWidth clientHeight v).aspect
        = clientWidth / clientHeight ∧
      (Canvas.handleResize clientWidth clientHeight v).rendererWidth
        = clientWidth ∧
      (Canvas.handleResize clientWidth clientHeight v).rendererHeight
        = clientHeight ∧
      (Canvas.handleResize clientWidth clientHeight v).sceneObjects
        = v.sceneObjects := by
  intro cw ch v hch hrefs
  unfold Canvas.handleResize
  rw [hrefs]
  simp

/-- Witness for C8 at a concrete 16:9 resize of a three-object scene. -/
theorem handleResize_frame_preserving_witness :
    (0 : ℚ) < 9 ∧
    ({ refsPresent := true, aspect := 1, rendererWidth := 8,
       rendererHeight := 8, sceneObjects := [0, 1, 2] } :
        Canvas.SceneView).refsPresent = true ∧
    (Canvas.handleResize 16 9
      { refsPresent := true, aspect := 1, rendererWidth := 8,
        rendererHeight := 8, sceneObjects := [0, 1, 2] }).aspect = 16/9 ∧
    (Canvas.handleResize 16 9
      { refsPresent := true, aspect := 1, rendererWidth := 8,
        rendererHeight := 8, sceneObjects := [0, 1, 2] }).sceneObjects
      = [0, 1, 2] := by
  refine ⟨by norm_num, rfl, ?_, ?_⟩
  · exact (handleResize_frame_preserving 16 9 _ (by norm_num) rfl).1
  · exact (handleResize_frame_preserving 16 9 _ (by norm_num) rfl).2.2.2

/-- C10: `updateScene` is atomic on error — on an uninitialized module
it returns false and leaves the whole module state (configuration
included) unchanged; on an initialized module it returns true and
merges exactly the supplied option fields into the configuration,
leaving everything else in place. -/
theorem updateScene_atomic :
    ∀ (o : Standalone.UpdateOptions) (w : Standalone.World),
      (w.isInitialized = false →
        Standalone.updateScene o w = (false, w)) ∧
      (w.isInitialized = true →
        (Standalone.updateScene o w).1 = true ∧
        (Standalone.updateScene o w).2.config.progress
          = o.progress.getD w.config.progress ∧
        (Standalone.updateScene o w).2.config.currentPhase
          = o.currentPhase.getD w.config.currentPhase ∧
        (Standalone.updateScene o w).2.config.phaseColors
          = o.phaseColors.getD w.config.phaseColors ∧
        (Standalone.updateScene o w).2.isInitialized = w.isInitialized ∧
        (Standalone.updateScene o w).2.listeners = w.listeners ∧
        (Standalone.updateScene o w).2.pendingFrames = w.pendingFrames ∧
        (Standalone.updateScene o w).2.liveRenderers = w.liveRenderers) := by
  intro o w
  constructor
  · intro hi
    simp [Standalone.updateScene, hi]
  · intro hi
    simp [Standalone.updateScene, Standalone.mergeConfig, hi]

/-- Witness for C10: on the freshly loaded (uninitialized) module an
update is rejected without touching the configuration, and on an
initialized module a progress-only update merges just that field. -/
theorem updateScene_atomic_witness :
    Standalone.initialWorld.isInitialized = false ∧
    Standalone.updateScene
        { progress := some (3/4), currentPhase := none, phaseColors := none }
        Standalone.initialWorld
      = (false, Standalone.initialWorld) ∧
    (Standalone.initScene true Standalone.initialWorld).2.isInitialized = true ∧
    (Standalone.updateScene
        { progress := some (3/4), currentPhase := none, phaseColors := none }
        (Standalone.initScene true Standalone.initialWorld).2).1 = true ∧
    (Standalone.updateScene
        { progress := some (3/4), currentPhase := none, phaseColors := none }
        (Standalone.initScene true Standalone.initialWorld).2).2.config.progress
      = 3/4 := by
  refine ⟨rfl, ?_, rfl, ?_, ?_⟩
  · exact (updateScene_atomic _ Standalone.initialWorld).1 rfl
  · exact ((updateScene_atomic _ _).2 rfl).1
  · have h := ((updateScene_atomic
      { progress := some (3/4), currentPhase := none, phaseColors := none }
      (Standalone.initScene true Standalone.initialWorld).2).2 rfl).2.1
    simpa using h

end Secured2
